import Mathlib

/-!
Shallow embedding of `collect_snyk_issues.py`: a tool that counts vulnerable
lines of code by Snyk organization and severity level.

The remote service is modelled as an oracle (`Service`): listing endpoints
return fixed page sequences, the slug lookup returns either a request error
(`none`) or a response carrying an optional slug, and the detail endpoint
returns either a request error (`none`) or a parsed detail record.

Python truthiness is modelled explicitly (`truthyS`, `truthyI`), since the
source guards use `if not (x and y)` on values that may be `None`, `""` or `0`.
Console output is modelled as a list of log strings accumulated alongside the
counts, so that claims about output-only flags can be stated.
-/

namespace Snyk

/-- Python truthiness of an optional string: `None` and `""` are falsy. -/
def truthyS : Option String → Bool
  | none => false
  | some s => s != ""

/-- Python truthiness of an optional integer: `None` and `0` are falsy. -/
def truthyI : Option Int → Bool
  | none => false
  | some n => n != 0

/-- Python `s.startswith(p)`. -/
def pyStartswith (s p : String) : Bool :=
  p.data.isPrefixOf s.data

/-- Python `s.lower()` (ASCII case folding, as used on severity strings). -/
def pyLower (s : String) : String :=
  String.mk (s.data.map Char.toLower)

/-- Python `s.lstrip('/')`. -/
def pyLstripSlash (s : String) : String :=
  String.mk (s.data.dropWhile (fun c => c == '/'))

/-- One entry of `attributes.problems` in an issue summary. -/
structure Problem where
  id : Option String
deriving DecidableEq

/-- An issue summary from the organization's issue listing.
`scan_item_id` models `relationships.scan_item.data.id`. -/
structure IssueSummary where
  id : Option String
  scan_item_id : Option String
  problems : List Problem
  title : Option String
deriving DecidableEq

/-- The fields of a detail response the aggregator reads:
`data.attributes.primaryRegion.startLine` / `endLine` and
`data.attributes.severity`. `none` models an absent field. -/
structure IssueDetail where
  startLine : Option Int
  endLine : Option Int
  severity : Option String
deriving DecidableEq

/-- One record of the group organization listing. -/
structure OrgRecord where
  id : Option String
  slug : Option String
deriving DecidableEq

/-- The per-organization severity bucket counters
(`org_vulnerable_lines` in the source). -/
structure OrgCounts where
  high : Int
  medium : Int
  low : Int
  total : Int
deriving DecidableEq

/-- Which endpoint a request targets (metadata used to state trace properties). -/
inductive ReqKind where
  | listOrgs
  | listIssues
  | orgLookup
  | detailFetch
deriving DecidableEq

/-- An HTTP GET request issued by the client: URL plus optional query
parameters (`none` models `params=None` on pagination follow-ups). -/
structure ApiRequest where
  kind : ReqKind
  url : String
  params : Option (List (String × String))
deriving DecidableEq

/-- One listing response: a `data` array and an optional `links.next`. -/
structure Page (α : Type) where
  data : List α
  next : Option String
deriving DecidableEq

/-- `SnykAPI._get_base_url`. -/
def get_base_url (region : String) : String :=
  if region == "SNYK-US-01" then "https://api.snyk.io"
  else if region == "SNYK-US-02" then "https://api.us.snyk.io"
  else if region == "SNYK-EU-01" then "https://api.eu.snyk.io"
  else if region == "SNYK-AU-01" then "https://api.au.snyk.io"
  else "https://api.snyk.io"

/-- Resolution of a `links.next` reference into the next request URL,
as in the pagination loops of `get_issues_for_org` and `get_all_orgs`. -/
def resolveNext (base_url next_url : String) : String :=
  if pyStartswith next_url "http" then next_url
  else if pyStartswith next_url "/" then base_url ++ next_url
  else base_url ++ "/" ++ pyLstripSlash next_url

/-- The shared pagination loop of `get_issues_for_org` and `get_all_orgs`:
issue a request per page, accumulate each page's `data`, follow `links.next`
(resolved by `resolveNext`) with `params=None`, and stop when `links.next`
is falsy — absent or the empty string — mirroring the source's
`if next_url:` / `while next_url:` truthiness checks. The supplied page list
is consumed one page per request; the loop also stops if the service yields
no further response. Returns the accumulated items and the request trace. -/
def paginate {α : Type} (kind : ReqKind) (base_url : String) :
    String → Option (List (String × String)) → List (Page α) →
    List α × List ApiRequest
  | _, _, [] => ([], [])
  | url, ps, page :: rest =>
    let req : ApiRequest := ⟨kind, url, ps⟩
    if truthyS page.next then
      let r := paginate kind base_url
        (resolveNext base_url (page.next.getD "")) none rest
      (page.data ++ r.1, req :: r.2)
    else (page.data, [req])

/-- `SnykAPI.get_issues_for_org`. -/
def get_issues_for_org (base_url org_id issue_type version : String)
    (pages : List (Page IssueSummary)) : List IssueSummary × List ApiRequest :=
  paginate ReqKind.listIssues base_url
    (base_url ++ "/rest/orgs/" ++ org_id ++ "/issues")
    (some [("version", version), ("type", issue_type),
           ("limit", "100"), ("status", "open")])
    pages

/-- `SnykAPI.get_all_orgs`. -/
def get_all_orgs (base_url group_id version : String)
    (pages : List (Page OrgRecord)) : List OrgRecord × List ApiRequest :=
  paginate ReqKind.listOrgs base_url
    (base_url ++ "/rest/groups/" ++ group_id ++ "/orgs")
    (some [("version", version), ("limit", "100")])
    pages

/-- `SnykAPI.get_org_slug`: the service response is `none` on a request
error, otherwise `some slug?` where `slug?` is the optional slug field.
A falsy slug (absent or empty) falls back to the organization id. -/
def get_org_slug (base_url org_id : String) (resp : Option (Option String)) :
    String × List ApiRequest :=
  let req : ApiRequest :=
    ⟨ReqKind.orgLookup, base_url ++ "/rest/orgs/" ++ org_id,
     some [("version", "2024-10-15")]⟩
  match resp with
  | none => (org_id, [req])
  | some slug => (if truthyS slug then slug.getD "" else org_id, [req])

/-- `SnykAPI.get_issue_details`: returns the service's parsed response
(`none` on a request error) together with the request issued. -/
def get_issue_details (base_url org_id project_id issue_id version : String)
    (resp : Option IssueDetail) : Option IssueDetail × ApiRequest :=
  (resp,
   ⟨ReqKind.detailFetch,
    base_url ++ "/rest/orgs/" ++ org_id ++ "/issues/detail/code/" ++ issue_id,
    some [("project_id", project_id), ("version", version)]⟩)

/-- `attributes.problems[0].get('id') if problems else None`. -/
def firstProblemId (issue : IssueSummary) : Option String :=
  match issue.problems with
  | [] => none
  | p :: _ => p.id

/-- `org_vulnerable_lines[severity] += n` (guarded dictionary update). -/
def addSeverity (c : OrgCounts) (sev : String) (n : Int) : OrgCounts :=
  if sev == "high" then { c with high := c.high + n }
  else if sev == "medium" then { c with medium := c.medium + n }
  else if sev == "low" then { c with low := c.low + n }
  else c

/-- `org_vulnerable_lines['total'] += n`. -/
def addTotal (c : OrgCounts) (n : Int) : OrgCounts :=
  { c with total := c.total + n }

/-- All four counters start at zero. -/
def initCounts : OrgCounts := ⟨0, 0, 0, 0⟩

/-- The evolving state of `process_org_issues`: bucket counters, processed
and skipped tallies, the trace of requests issued, and console output. -/
structure AggResult where
  counts : OrgCounts
  processed : Nat
  skipped : Nat
  trace : List ApiRequest
  log : List String
deriving DecidableEq

/-- The body of the per-issue loop of `process_org_issues` (one iteration,
for the `i`-th issue). `details` is the service's detail-endpoint oracle,
keyed by organization, project and problem id. -/
def processIssue (details : String → String → String → Option IssueDetail)
    (base_url org_id : String) (verbose debug : Bool)
    (st : AggResult) (i : Nat) (issue : IssueSummary) : AggResult :=
  let project_id := issue.scan_item_id
  let issue_id := firstProblemId issue
  let st1 :=
    if debug then
      { st with log := st.log ++
          ["DEBUG issue " ++ toString i ++ ": project_id=" ++
           project_id.getD "None" ++ " issue_id=" ++ issue_id.getD "None"] }
    else st
  if !(truthyS project_id && truthyS issue_id) then
    { st1 with skipped := st1.skipped + 1,
               log := st1.log ++
                 (if verbose then
                    ["Skipping issue " ++ toString i ++
                     ": missing project_id or issue_id"]
                  else []) }
  else
    let pid := project_id.getD ""
    let iid := issue_id.getD ""
    let fetched := get_issue_details base_url org_id pid iid
      "2024-10-14~experimental" (details org_id pid iid)
    let st2 := { st1 with trace := st1.trace ++ [fetched.2] }
    match fetched.1 with
    | none =>
      { st2 with skipped := st2.skipped + 1,
                 log := st2.log ++
                   (if verbose then
                      ["Skipping issue " ++ iid ++ ": could not fetch details"]
                    else []) }
    | some d =>
      let start_line := d.startLine
      let end_line := d.endLine
      let severity := pyLower (d.severity.getD "unknown")
      if !(truthyI start_line && truthyI end_line) then
        { st2 with skipped := st2.skipped + 1,
                   log := st2.log ++
                     (if verbose then
                        ["Skipping issue " ++ iid ++ ": missing line range"]
                      else []) }
      else
        let vulnerable_lines := end_line.getD 0 - start_line.getD 0 + 1
        if ["high", "medium", "low"].contains severity then
          let counts := addTotal (addSeverity st2.counts severity vulnerable_lines)
            vulnerable_lines
          let processed := st2.processed + 1
          { st2 with counts := counts, processed := processed,
                     log := st2.log ++
                       (if verbose && processed ≤ 3 then
                          ["Processed issue " ++ iid.take 8 ++ ": " ++
                           toString vulnerable_lines ++ " " ++ severity ++ " lines"]
                        else []) }
        else
          { st2 with skipped := st2.skipped + 1,
                     log := st2.log ++
                       (if verbose then
                          ["Unknown severity " ++ severity ++ " for issue " ++ iid]
                        else []) }

/-- The per-issue loop of `process_org_issues`
(`for i, issue in enumerate(issues, 1)`). -/
def processIssues (details : String → String → String → Option IssueDetail)
    (base_url org_id : String) (verbose debug : Bool) :
    AggResult → Nat → List IssueSummary → AggResult
  | st, _, [] => st
  | st, i, issue :: rest =>
    processIssues details base_url org_id verbose debug
      (processIssue details base_url org_id verbose debug st i issue) (i + 1) rest

/-- The service oracle: fixed page sequences for the listing endpoints, a
slug-lookup response per organization, and the detail endpoint keyed by
organization, project and problem id. -/
structure Service where
  orgPages : List (Page OrgRecord)
  issuePages : String → List (Page IssueSummary)
  slugResp : String → Option (Option String)
  details : String → String → String → Option IssueDetail

/-- `process_org_issues`: fetch the organization's open code issues
(version `2024-10-15`), then run the per-issue loop from zeroed counters. -/
def process_org_issues (svc : Service) (base_url org_id org_slug : String)
    (verbose debug : Bool) : AggResult :=
  let fetched := get_issues_for_org base_url org_id "code" "2024-10-15"
    (svc.issuePages org_id)
  let issues := fetched.1
  let log0 :=
    ["Processing organization: " ++ org_slug ++ " (" ++ org_id ++ ")",
     "Found " ++ toString issues.length ++ " code issues"] ++
    (if debug then ["Saved debug issues file for " ++ org_slug] else []) ++
    (if verbose && !issues.isEmpty then ["Sample issues shown"] else [])
  let st0 : AggResult := ⟨initCounts, 0, 0, fetched.2, log0⟩
  let res := processIssues svc.details base_url org_id verbose debug st0 1 issues
  { res with log := res.log ++
      ["Processed " ++ toString res.processed ++ " issues, skipped " ++
       toString res.skipped ++ " issues"] }

/-- The command-line arguments of the tool. -/
structure Args where
  group_id : Option String
  org_id : Option String
  output : Option String
  snyk_region : String
  api_version : String
  verbose : Bool
  debug : Bool

/-- The outcome of a successful run: the report (in insertion order), the
full trace of requests issued, and console output. -/
structure RunResult where
  report : List (String × OrgCounts)
  trace : List ApiRequest
  log : List String
deriving DecidableEq

/-- The per-organization loop of `main`: aggregate each organization and key
its entry by `"<slug> (<id>)"`. -/
def runOrgs (svc : Service) (base_url : String) (verbose debug : Bool) :
    List (String × String) → List (String × OrgCounts) × List ApiRequest × List String
  | [] => ([], [], [])
  | (org_id, org_slug) :: rest =>
    let res := process_org_issues svc base_url org_id org_slug verbose debug
    let r := runOrgs svc base_url verbose debug rest
    ((org_slug ++ " (" ++ org_id ++ ")", res.counts) :: r.1,
     res.trace ++ r.2.1, res.log ++ r.2.2)

/-- Organization resolution in `main`: group expansion (deriving slug from
each record, falling back to the id) or single-organization slug lookup.
Returns the organizations to process, the requests issued and console output. -/
def resolveOrgs (args : Args) (svc : Service) (base_url : String) :
    List (String × String) × List ApiRequest × List String :=
  if truthyS args.group_id then
    let gid := args.group_id.getD ""
    let fetched := get_all_orgs base_url gid "2024-10-15" svc.orgPages
    let orgs := fetched.1.filterMap fun o =>
      if truthyS o.id then
        some (o.id.getD "", o.slug.getD (o.id.getD ""))
      else none
    (orgs, fetched.2,
     if args.verbose then
       orgs.map fun o => "Will process: " ++ o.2 ++ " (" ++ o.1 ++ ")"
     else [])
  else
    let oid := args.org_id.getD ""
    let looked := get_org_slug base_url oid (svc.slugResp oid)
    ([(oid, looked.1)], looked.2, ([] : List String))

/-- `main`: argument validation, credential check, organization resolution
(group expansion or single-organization slug lookup), the per-organization
loop, and assembly of the report. `none` models a fatal exit. -/
def runMain (args : Args) (token : Option String) (svc : Service) :
    Option RunResult :=
  if !truthyS args.group_id && !truthyS args.org_id then none
  else if truthyS args.group_id && truthyS args.org_id then none
  else if !truthyS token then none
  else
    let base_url := get_base_url args.snyk_region
    let resolved := resolveOrgs args svc base_url
    if resolved.1.isEmpty then none
    else
      let ran := runOrgs svc base_url args.verbose args.debug resolved.1
      some ⟨ran.1, resolved.2.1 ++ ran.2.1, resolved.2.2 ++ ran.2.2⟩

/-- The bucket a severity string selects (used to state bucket properties). -/
def bucketVal (c : OrgCounts) (sev : String) : Int :=
  if sev = "high" then c.high
  else if sev = "medium" then c.medium
  else if sev = "low" then c.low
  else 0

/-- The counters/trace part of one loop iteration, without flags or logging:
a proof device, proved equal to the corresponding fields of `processIssue`. -/
def stepCore (details : String → String → String → Option IssueDetail)
    (base_url org_id : String) (c : OrgCounts) (p s : Nat)
    (tr : List ApiRequest) (issue : IssueSummary) :
    OrgCounts × Nat × Nat × List ApiRequest :=
  let project_id := issue.scan_item_id
  let issue_id := firstProblemId issue
  if !(truthyS project_id && truthyS issue_id) then (c, p, s + 1, tr)
  else
    let pid := project_id.getD ""
    let iid := issue_id.getD ""
    let fetched := get_issue_details base_url org_id pid iid
      "2024-10-14~experimental" (details org_id pid iid)
    let tr2 := tr ++ [fetched.2]
    match fetched.1 with
    | none => (c, p, s + 1, tr2)
    | some d =>
      if !(truthyI d.startLine && truthyI d.endLine) then (c, p, s + 1, tr2)
      else
        let vulnerable_lines := d.endLine.getD 0 - d.startLine.getD 0 + 1
        let severity := pyLower (d.severity.getD "unknown")
        if ["high", "medium", "low"].contains severity then
          (addTotal (addSeverity c severity vulnerable_lines) vulnerable_lines,
           p + 1, s, tr2)
        else (c, p, s + 1, tr2)

/-- The `version` query parameter a request carries, when any. -/
def versionParam (req : ApiRequest) : Option String :=
  req.params.bind fun ps => ps.lookup "version"

/-- The request `get_issue_details` issues from the aggregator's call site
(which always passes version `2024-10-14~experimental`). -/
def detailReq (base_url org_id pid iid : String) : ApiRequest :=
  ⟨ReqKind.detailFetch,
   base_url ++ "/rest/orgs/" ++ org_id ++ "/issues/detail/code/" ++ iid,
   some [("project_id", pid), ("version", "2024-10-14~experimental")]⟩

/-- The counters/trace fields of an aggregation state (everything but the log). -/
def coreOf (a : AggResult) : OrgCounts × Nat × Nat × List ApiRequest :=
  (a.counts, a.processed, a.skipped, a.trace)

/-- The query parameters of the initial issues-listing request made by the
aggregator (which passes version `2024-10-15` explicitly). -/
def issuesParams : List (String × String) :=
  [("version", "2024-10-15"), ("type", "code"), ("limit", "100"), ("status", "open")]

/-- The query parameters of the initial group organization-listing request
(the call site uses the function's default version `2024-10-15`). -/
def orgsParams : List (String × String) :=
  [("version", "2024-10-15"), ("limit", "100")]

/-- Concrete fixture: an issue summary with both identifiers present. -/
def issueW : IssueSummary :=
  ⟨some "issue-1", some "proj-1", [⟨some "prob-1"⟩], some "Title one"⟩

/-- Concrete fixture: a second issue summary with both identifiers present. -/
def issueW2 : IssueSummary :=
  ⟨some "issue-2", some "proj-1", [⟨some "prob-2"⟩], some "Title two"⟩

/-- Concrete fixture: an issue summary missing both identifiers. -/
def issueNoIds : IssueSummary := ⟨some "issue-3", none, [], none⟩

/-- Concrete fixture: detail with lines 10-12 and severity `High`. -/
def detailHigh : IssueDetail := ⟨some 10, some 12, some "High"⟩

/-- Concrete fixture: detail with lines 5-5 and severity `low`. -/
def detailLow : IssueDetail := ⟨some 5, some 5, some "low"⟩

/-- Concrete fixture: detail with valid lines but severity `CRITICAL`. -/
def detailCrit : IssueDetail := ⟨some 2, some 4, some "CRITICAL"⟩

/-- Concrete fixture: detail whose startLine is the integer zero. -/
def detailZero : IssueDetail := ⟨some 0, some 3, some "high"⟩

/-- Concrete fixture: detail whose endLine is the integer zero. -/
def detailZeroEnd : IssueDetail := ⟨some 5, some 0, some "low"⟩

/-- Concrete fixture: detail oracle serving `detailHigh` / `detailLow`. -/
def detailsW : String → String → String → Option IssueDetail :=
  fun _ _ iid => if iid == "prob-1" then some detailHigh else some detailLow

/-- Concrete fixture: detail oracle always serving `detailZero`. -/
def detailsZero : String → String → String → Option IssueDetail :=
  fun _ _ _ => some detailZero

/-- Concrete fixture: detail oracle always serving `detailZeroEnd`. -/
def detailsZeroEnd : String → String → String → Option IssueDetail :=
  fun _ _ _ => some detailZeroEnd

/-- Concrete fixture: detail oracle always serving `detailCrit`. -/
def detailsCrit : String → String → String → Option IssueDetail :=
  fun _ _ _ => some detailCrit

/-- Concrete fixture: a service with one organization issue page. -/
def svcW : Service :=
  ⟨[], fun _ => [⟨[issueW, issueW2], none⟩], fun _ => some (some "acme"), detailsW⟩

/-- Concrete fixture: `svcW` whose slug lookup fails with a request error. -/
def svcFail : Service :=
  ⟨[], fun _ => [⟨[issueW, issueW2], none⟩], fun _ => none, detailsW⟩

/-- Concrete fixture: single-organization command line. -/
def argsW : Args :=
  ⟨none, some "org-123", none, "SNYK-US-01", "2024-10-15", false, false⟩

/-- Concrete fixture: a present, non-empty credential. -/
def tokenW : Option String := some "token-abc"

/-- Concrete fixture: the empty run result, used as a `getD` default. -/
def emptyRun : RunResult := ⟨[], [], []⟩

/-- Concrete fixture: the run result of `runMain argsW tokenW svcW`. -/
def resW : RunResult := (runMain argsW tokenW svcW).getD emptyRun

/-- Concrete fixture: the zeroed initial aggregation state. -/
def aggInit : AggResult := ⟨initCounts, 0, 0, [], []⟩

/-- Concrete fixture: the first report entry of `resW`. -/
def entryW : String × OrgCounts := resW.report.getD 0 ("", initCounts)

/-- Concrete fixture: the issues-listing request in the trace of `resW`. -/
def reqListW : ApiRequest := resW.trace.getD 1 ⟨ReqKind.listOrgs, "", none⟩

/-- Concrete fixture: the first detail-fetch request in the trace of `resW`. -/
def reqDetailW : ApiRequest := resW.trace.getD 2 ⟨ReqKind.listOrgs, "", none⟩

/-- Concrete fixture page whose next link is an absolute URL. -/
def pageA : Page String := ⟨["a1", "a2"], some "https://api.snyk.io/rest/orgs/o1/issues?starting_after=2"⟩

/-- Concrete fixture page whose next link is an absolute path. -/
def pageB : Page String := ⟨["b1"], some "/rest/orgs/o1/issues?starting_after=3"⟩

/-- Concrete fixture page whose next link is a bare fragment. -/
def pageC : Page String := ⟨["c1"], some "rest/orgs/o1/issues?starting_after=4"⟩

/-- Concrete fixture page with no next link. -/
def pageD : Page String := ⟨["d1"], none⟩

/-- Concrete fixture page behind the terminating page; never requested. -/
def pageE : Page String := ⟨["e1"], some "unreachable"⟩

theorem processIssue_core (details : String → String → String → Option IssueDetail)
    (base_url org_id : String) (verbose debug : Bool) (st : AggResult)
    (i : Nat) (issue : IssueSummary) :
    ((processIssue details base_url org_id verbose debug st i issue).counts,
     (processIssue details base_url org_id verbose debug st i issue).processed,
     (processIssue details base_url org_id verbose debug st i issue).skipped,
     (processIssue details base_url org_id verbose debug st i issue).trace) =
    stepCore details base_url org_id st.counts st.processed st.skipped st.trace
      issue := by
  unfold processIssue stepCore
  cases debug <;>
    cases hdet : details org_id (issue.scan_item_id.getD "")
        ((firstProblemId issue).getD "") <;>
      simp only [get_issue_details, hdet] <;>
      split_ifs <;>
      rfl

theorem processIssue_counts (details : String → String → String → Option IssueDetail)
    (base_url org_id : String) (verbose debug : Bool) (st : AggResult)
    (i : Nat) (issue : IssueSummary) :
    (processIssue details base_url org_id verbose debug st i issue).counts =
      (stepCore details base_url org_id st.counts st.processed st.skipped st.trace
        issue).1 :=
  congrArg Prod.fst
    (processIssue_core details base_url org_id verbose debug st i issue)

theorem processIssue_processed (details : String → String → String → Option IssueDetail)
    (base_url org_id : String) (verbose debug : Bool) (st : AggResult)
    (i : Nat) (issue : IssueSummary) :
    (processIssue details base_url org_id verbose debug st i issue).processed =
      (stepCore details base_url org_id st.counts st.processed st.skipped st.trace
        issue).2.1 :=
  congrArg (fun x => x.2.1)
    (processIssue_core details base_url org_id verbose debug st i issue)

theorem processIssue_skipped (details : String → String → String → Option IssueDetail)
    (base_url org_id : String) (verbose debug : Bool) (st : AggResult)
    (i : Nat) (issue : IssueSummary) :
    (processIssue details base_url org_id verbose debug st i issue).skipped =
      (stepCore details base_url org_id st.counts st.processed st.skipped st.trace
        issue).2.2.1 :=
  congrArg (fun x => x.2.2.1)
    (processIssue_core details base_url org_id verbose debug st i issue)

theorem processIssue_trace (details : String → String → String → Option IssueDetail)
    (base_url org_id : String) (verbose debug : Bool) (st : AggResult)
    (i : Nat) (issue : IssueSummary) :
    (processIssue details base_url org_id verbose debug st i issue).trace =
      (stepCore details base_url org_id st.counts st.processed st.skipped st.trace
        issue).2.2.2 :=
  congrArg (fun x => x.2.2.2)
    (processIssue_core details base_url org_id verbose debug st i issue)

theorem stepCore_total (details : String → String → String → Option IssueDetail)
    (base_url org_id : String) (c : OrgCounts) (prc skp : Nat)
    (tr : List ApiRequest) (issue : IssueSummary)
    (h : c.total = c.high + c.medium + c.low) :
    (stepCore details base_url org_id c prc skp tr issue).1.total =
      (stepCore details base_url org_id c prc skp tr issue).1.high +
      (stepCore details base_url org_id c prc skp tr issue).1.medium +
      (stepCore details base_url org_id c prc skp tr issue).1.low := by
  unfold stepCore
  cases hdet : details org_id (issue.scan_item_id.getD "")
      ((firstProblemId issue).getD "") with
  | none =>
    simp only [get_issue_details, hdet]
    split_ifs <;> exact h
  | some d =>
    simp only [get_issue_details, hdet]
    split_ifs with h1 h2 h3
    · exact h
    · exact h
    · have h4 : pyLower (d.severity.getD "unknown") = "high" ∨
          pyLower (d.severity.getD "unknown") = "medium" ∨
          pyLower (d.severity.getD "unknown") = "low" := by simpa using h3
      rcases h4 with h4 | h4 | h4 <;> simp [addSeverity, addTotal, h4] <;> omega
    · exact h

theorem stepCore_trace (details : String → String → String → Option IssueDetail)
    (base_url org_id : String) (c : OrgCounts) (prc skp : Nat)
    (tr : List ApiRequest) (issue : IssueSummary) :
    ∀ req ∈ (stepCore details base_url org_id c prc skp tr issue).2.2.2,
      req ∈ tr ∨ (req.kind = ReqKind.detailFetch ∧
        versionParam req = some "2024-10-14~experimental") := by
  unfold stepCore
  cases hdet : details org_id (issue.scan_item_id.getD "")
      ((firstProblemId issue).getD "") <;>
    simp only [get_issue_details, hdet] <;>
    split_ifs <;>
    intro req hreq <;>
    first
    | exact Or.inl hreq
    | { rcases List.mem_append.mp hreq with hl | hr
        · exact Or.inl hl
        · refine Or.inr ?_
          rcases List.mem_singleton.mp hr with rfl
          refine ⟨rfl, ?_⟩
          simp [versionParam, List.lookup] }

theorem stepCore_noids (details : String → String → String → Option IssueDetail)
    (base_url org_id : String) (c : OrgCounts) (prc skp : Nat)
    (tr : List ApiRequest) (issue : IssueSummary)
    (h : issue.scan_item_id = none ∨ firstProblemId issue = none) :
    stepCore details base_url org_id c prc skp tr issue = (c, prc, skp + 1, tr) := by
  rcases h with h | h <;> unfold stepCore <;> simp [h, truthyS]

theorem stepCore_zeroline (details : String → String → String → Option IssueDetail)
    (base_url org_id : String) (c : OrgCounts) (prc skp : Nat)
    (tr : List ApiRequest) (issue : IssueSummary) (pid iid : String)
    (d : IssueDetail)
    (hpid : issue.scan_item_id = some pid) (hpne : pid ≠ "")
    (hiid : firstProblemId issue = some iid) (hine : iid ≠ "")
    (hdet : details org_id pid iid = some d)
    (hzero : d.startLine = none ∨ d.endLine = none ∨
      d.startLine = some 0 ∨ d.endLine = some 0) :
    stepCore details base_url org_id c prc skp tr issue =
      (c, prc, skp + 1, tr ++ [detailReq base_url org_id pid iid]) := by
  unfold stepCore
  rcases hzero with h | h | h | h <;>
    simp [hpid, hiid, hdet, h, get_issue_details, truthyS, truthyI,
      hpne, hine, detailReq]

theorem stepCore_badsev (details : String → String → String → Option IssueDetail)
    (base_url org_id : String) (c : OrgCounts) (prc skp : Nat)
    (tr : List ApiRequest) (issue : IssueSummary) (pid iid : String)
    (d : IssueDetail) (s e : Int)
    (hpid : issue.scan_item_id = some pid) (hpne : pid ≠ "")
    (hiid : firstProblemId issue = some iid) (hine : iid ≠ "")
    (hdet : details org_id pid iid = some d)
    (hs : d.startLine = some s) (hs0 : s ≠ 0)
    (he : d.endLine = some e) (he0 : e ≠ 0)
    (hsev : (["high", "medium", "low"].contains
      (pyLower (d.severity.getD "unknown"))) = false) :
    stepCore details base_url org_id c prc skp tr issue =
      (c, prc, skp + 1, tr ++ [detailReq base_url org_id pid iid]) := by
  have hn : ¬ pyLower (d.severity.getD "unknown") = "high" ∧
      ¬ pyLower (d.severity.getD "unknown") = "medium" ∧
      ¬ pyLower (d.severity.getD "unknown") = "low" := by simpa using hsev
  unfold stepCore
  simp [hpid, hiid, hdet, hs, he, get_issue_details, truthyS, truthyI,
    hpne, hine, hs0, he0, detailReq, hn.1, hn.2.1, hn.2.2]

theorem stepCore_counted (details : String → String → String → Option IssueDetail)
    (base_url org_id : String) (c : OrgCounts) (prc skp : Nat)
    (tr : List ApiRequest) (issue : IssueSummary) (pid iid : String)
    (d : IssueDetail) (s e : Int)
    (hpid : issue.scan_item_id = some pid) (hpne : pid ≠ "")
    (hiid : firstProblemId issue = some iid) (hine : iid ≠ "")
    (hdet : details org_id pid iid = some d)
    (hs : d.startLine = some s) (hs0 : s ≠ 0)
    (he : d.endLine = some e) (he0 : e ≠ 0)
    (hsev : (["high", "medium", "low"].contains
      (pyLower (d.severity.getD "unknown"))) = true) :
    stepCore details base_url org_id c prc skp tr issue =
      (addTotal (addSeverity c (pyLower (d.severity.getD "unknown")) (e - s + 1))
        (e - s + 1),
       prc + 1, skp, tr ++ [detailReq base_url org_id pid iid]) := by
  have h4 : pyLower (d.severity.getD "unknown") = "high" ∨
      pyLower (d.severity.getD "unknown") = "medium" ∨
      pyLower (d.severity.getD "unknown") = "low" := by simpa using hsev
  unfold stepCore
  rcases h4 with h4 | h4 | h4 <;>
    simp [hpid, hiid, hdet, hs, he, h4, get_issue_details, truthyS, truthyI,
      hpne, hine, hs0, he0, detailReq, addSeverity, addTotal]

theorem processIssues_total (details : String → String → String → Option IssueDetail)
    (base_url org_id : String) (verbose debug : Bool)
    (issues : List IssueSummary) :
    ∀ (st : AggResult) (i : Nat),
      st.counts.total = st.counts.high + st.counts.medium + st.counts.low →
      (processIssues details base_url org_id verbose debug st i issues).counts.total =
        (processIssues details base_url org_id verbose debug st i issues).counts.high +
        (processIssues details base_url org_id verbose debug st i issues).counts.medium +
        (processIssues details base_url org_id verbose debug st i issues).counts.low := by
  induction issues with
  | nil => intro st i h; exact h
  | cons issue rest ih =>
    intro st i h
    simp only [processIssues]
    apply ih
    rw [processIssue_counts]
    exact stepCore_total details base_url org_id st.counts st.processed st.skipped
      st.trace issue h

theorem processIssues_core (details : String → String → String → Option IssueDetail)
    (base_url org_id : String) (v1 g1 v2 g2 : Bool)
    (issues : List IssueSummary) :
    ∀ (st st' : AggResult) (i i' : Nat), coreOf st = coreOf st' →
      coreOf (processIssues details base_url org_id v1 g1 st i issues) =
      coreOf (processIssues details base_url org_id v2 g2 st' i' issues) := by
  induction issues with
  | nil => intro st st' i i' h; exact h
  | cons issue rest ih =>
    intro st st' i i' h
    simp only [processIssues]
    apply ih
    have h1 : st.counts = st'.counts := congrArg Prod.fst h
    have h2 : st.processed = st'.processed := congrArg (fun x => x.2.1) h
    have h3 : st.skipped = st'.skipped := congrArg (fun x => x.2.2.1) h
    have h4 : st.trace = st'.trace := congrArg (fun x => x.2.2.2) h
    have e1 := processIssue_core details base_url org_id v1 g1 st i issue
    have e2 := processIssue_core details base_url org_id v2 g2 st' i' issue
    refine e1.trans ?_
    rw [h1, h2, h3, h4]
    exact e2.symm

theorem processIssues_trace (details : String → String → String → Option IssueDetail)
    (base_url org_id : String) (verbose debug : Bool)
    (issues : List IssueSummary) :
    ∀ (st : AggResult) (i : Nat) (req : ApiRequest),
      req ∈ (processIssues details base_url org_id verbose debug st i issues).trace →
      req ∈ st.trace ∨ (req.kind = ReqKind.detailFetch ∧
        versionParam req = some "2024-10-14~experimental") := by
  induction issues with
  | nil => intro st i req h; exact Or.inl h
  | cons issue rest ih =>
    intro st i req h
    simp only [processIssues] at h
    rcases ih _ _ _ h with h1 | h1
    · rw [processIssue_trace] at h1
      exact stepCore_trace details base_url org_id st.counts st.processed st.skipped
        st.trace issue req h1
    · exact Or.inr h1

theorem paginate_reqs {α : Type} (kind : ReqKind) (base_url : String)
    (pages : List (Page α)) :
    ∀ (url : String) (ps : Option (List (String × String))) (req : ApiRequest),
      req ∈ (paginate kind base_url url ps pages).2 →
      req.kind = kind ∧ (req.params = ps ∨ req.params = none) := by
  induction pages with
  | nil => intro url ps req h; simp [paginate] at h
  | cons page rest ih =>
    intro url ps req h
    simp only [paginate] at h
    split at h
    · simp only [List.mem_cons] at h
      rcases h with rfl | h
      · exact ⟨rfl, Or.inl rfl⟩
      · rcases ih _ none req h with ⟨hk, hp | hp⟩
        · exact ⟨hk, Or.inr hp⟩
        · exact ⟨hk, Or.inr hp⟩
    · simp only [List.mem_singleton] at h
      subst h
      exact ⟨rfl, Or.inl rfl⟩

theorem paginate_concat {α : Type} (kind : ReqKind) (base_url : String)
    (plast : Page α) (rest : List (Page α)) (h2 : plast.next = none)
    (pages1 : List (Page α)) :
    ∀ (url : String) (ps : Option (List (String × String))),
      (∀ p ∈ pages1, truthyS p.next = true) →
      (paginate kind base_url url ps (pages1 ++ plast :: rest)).1 =
        (pages1.map Page.data).flatten ++ plast.data ∧
      (paginate kind base_url url ps (pages1 ++ plast :: rest)).2.length =
        pages1.length + 1 := by
  induction pages1 with
  | nil =>
    intro url ps _
    constructor <;> simp [paginate, h2, truthyS]
  | cons p t ih =>
    intro url ps h1
    have hp : truthyS p.next = true := h1 p (List.mem_cons_self p t)
    have iht := ih (resolveNext base_url (p.next.getD "")) none
      (fun q hq => h1 q (List.mem_cons_of_mem p hq))
    simp only [List.cons_append, paginate, hp, if_true]
    rcases iht with ⟨ha, hb⟩
    constructor
    · simp [ha, List.append_assoc]
    · simp [hb]

theorem paginate_head {α : Type} (kind : ReqKind) (base_url : String)
    (page : Page α) (rest : List (Page α)) (url : String)
    (ps : Option (List (String × String))) :
    ((paginate kind base_url url ps (page :: rest)).2).head? =
      some ⟨kind, url, ps⟩ := by
  simp only [paginate]
  split <;> rfl

theorem paginate_tail_params {α : Type} (kind : ReqKind) (base_url : String)
    (pages : List (Page α)) (url : String)
    (ps : Option (List (String × String))) :
    ∀ req ∈ ((paginate kind base_url url ps pages).2).tail, req.params = none := by
  cases pages with
  | nil => intro req h; simp [paginate] at h
  | cons page rest =>
    intro req h
    simp only [paginate] at h
    split at h
    · simp only [List.tail_cons] at h
      rcases paginate_reqs kind base_url rest _ none req h with ⟨_, hp | hp⟩ <;>
        exact hp
    · simp at h

theorem pyLstripSlash_of_not_slash (n : String)
    (h : pyStartswith n "/" = false) : pyLstripSlash n = n := by
  cases n with
  | mk l =>
    cases l with
    | nil => rfl
    | cons c cs =>
      have hd : ("/" : String).data = ['/'] := rfl
      simp only [pyStartswith, hd, List.isPrefixOf, Bool.and_true] at h
      have hc : (c == '/') = false :=
        beq_eq_false_iff_ne.mpr (Ne.symm (beq_eq_false_iff_ne.mp h))
      simp [pyLstripSlash, List.dropWhile, hc]

theorem process_org_issues_total (svc : Service) (base_url org_id org_slug : String)
    (verbose debug : Bool) :
    (process_org_issues svc base_url org_id org_slug verbose debug).counts.total =
      (process_org_issues svc base_url org_id org_slug verbose debug).counts.high +
      (process_org_issues svc base_url org_id org_slug verbose debug).counts.medium +
      (process_org_issues svc base_url org_id org_slug verbose debug).counts.low := by
  unfold process_org_issues
  apply processIssues_total
  rfl

theorem process_org_issues_core (svc : Service) (base_url org_id org_slug : String)
    (v1 g1 v2 g2 : Bool) :
    coreOf (process_org_issues svc base_url org_id org_slug v1 g1) =
    coreOf (process_org_issues svc base_url org_id org_slug v2 g2) := by
  unfold process_org_issues
  exact processIssues_core svc.details base_url org_id v1 g1 v2 g2 _ _ _ 1 1 rfl

theorem process_org_issues_trace (svc : Service) (base_url org_id org_slug : String)
    (verbose debug : Bool) :
    ∀ req ∈ (process_org_issues svc base_url org_id org_slug verbose debug).trace,
      (req.kind = ReqKind.listIssues ∧
        (req.params = some issuesParams ∨ req.params = none)) ∨
      (req.kind = ReqKind.detailFetch ∧
        versionParam req = some "2024-10-14~experimental") := by
  intro req h
  unfold process_org_issues at h
  rcases processIssues_trace svc.details base_url org_id verbose debug _ _ 1 req h
    with h1 | h1
  · exact Or.inl (paginate_reqs ReqKind.listIssues base_url _ _ _ req h1)
  · exact Or.inr h1

theorem runOrgs_total (svc : Service) (base_url : String) (verbose debug : Bool)
    (orgs : List (String × String)) :
    ∀ entry ∈ (runOrgs svc base_url verbose debug orgs).1,
      entry.2.total = entry.2.high + entry.2.medium + entry.2.low := by
  induction orgs with
  | nil => intro entry h; simp [runOrgs] at h
  | cons org rest ih =>
    obtain ⟨oid, slug⟩ := org
    intro entry h
    simp only [runOrgs] at h
    rcases List.mem_cons.mp h with rfl | h
    · exact process_org_issues_total svc base_url oid slug verbose debug
    · exact ih entry h

theorem runOrgs_core (svc : Service) (base_url : String) (v1 g1 v2 g2 : Bool)
    (orgs : List (String × String)) :
    (runOrgs svc base_url v1 g1 orgs).1 = (runOrgs svc base_url v2 g2 orgs).1 ∧
    (runOrgs svc base_url v1 g1 orgs).2.1 = (runOrgs svc base_url v2 g2 orgs).2.1 := by
  induction orgs with
  | nil => exact ⟨rfl, rfl⟩
  | cons org rest ih =>
    obtain ⟨oid, slug⟩ := org
    have hco := process_org_issues_core svc base_url oid slug v1 g1 v2 g2
    have hc : (process_org_issues svc base_url oid slug v1 g1).counts =
        (process_org_issues svc base_url oid slug v2 g2).counts :=
      congrArg Prod.fst hco
    have ht : (process_org_issues svc base_url oid slug v1 g1).trace =
        (process_org_issues svc base_url oid slug v2 g2).trace :=
      congrArg (fun x => x.2.2.2) hco
    simp only [runOrgs]
    exact ⟨by rw [hc, ih.1], by rw [ht, ih.2]⟩

theorem runOrgs_trace (svc : Service) (base_url : String) (verbose debug : Bool)
    (orgs : List (String × String)) :
    ∀ req ∈ (runOrgs svc base_url verbose debug orgs).2.1,
      (req.kind = ReqKind.listIssues ∧
        (req.params = some issuesParams ∨ req.params = none)) ∨
      (req.kind = ReqKind.detailFetch ∧
        versionParam req = some "2024-10-14~experimental") := by
  induction orgs with
  | nil => intro req h; simp [runOrgs] at h
  | cons org rest ih =>
    obtain ⟨oid, slug⟩ := org
    intro req h
    simp only [runOrgs] at h
    rcases List.mem_append.mp h with h1 | h1
    · exact process_org_issues_trace svc base_url oid slug verbose debug req h1
    · exact ih req h1

theorem get_org_slug_trace (base_url org_id : String) (resp : Option (Option String)) :
    (get_org_slug base_url org_id resp).2 =
      [⟨ReqKind.orgLookup, base_url ++ "/rest/orgs/" ++ org_id,
        some [("version", "2024-10-15")]⟩] := by
  unfold get_org_slug
  cases resp <;> rfl

theorem resolveOrgs_trace (args : Args) (svc : Service) (base_url : String) :
    ∀ req ∈ (resolveOrgs args svc base_url).2.1,
      (req.kind = ReqKind.listOrgs ∧
        (req.params = some orgsParams ∨ req.params = none)) ∨
      (req.kind = ReqKind.orgLookup ∧
        req.params = some [("version", "2024-10-15")]) := by
  intro req h
  unfold resolveOrgs at h
  split at h
  · exact Or.inl (paginate_reqs ReqKind.listOrgs base_url _ _ _ req h)
  · rw [show ((let oid := args.org_id.getD "";
        let looked := get_org_slug base_url oid (svc.slugResp oid);
        (([(oid, looked.1)] : List (String × String)), looked.2,
          ([] : List String))).2.1 : List ApiRequest) =
        (get_org_slug base_url (args.org_id.getD "")
          (svc.slugResp (args.org_id.getD ""))).2 from rfl,
      get_org_slug_trace] at h
    rcases List.mem_singleton.mp h with rfl
    exact Or.inr ⟨rfl, rfl⟩

theorem runMain_eq (args : Args) (token : Option String) (svc : Service) :
    runMain args token svc =
      if !truthyS args.group_id && !truthyS args.org_id then none
      else if truthyS args.group_id && truthyS args.org_id then none
      else if !truthyS token then none
      else if (resolveOrgs args svc (get_base_url args.snyk_region)).1.isEmpty then
        none
      else
        some ⟨(runOrgs svc (get_base_url args.snyk_region) args.verbose args.debug
                 (resolveOrgs args svc (get_base_url args.snyk_region)).1).1,
              (resolveOrgs args svc (get_base_url args.snyk_region)).2.1 ++
                (runOrgs svc (get_base_url args.snyk_region) args.verbose args.debug
                  (resolveOrgs args svc (get_base_url args.snyk_region)).1).2.1,
              (resolveOrgs args svc (get_base_url args.snyk_region)).2.2 ++
                (runOrgs svc (get_base_url args.snyk_region) args.verbose args.debug
                  (resolveOrgs args svc (get_base_url args.snyk_region)).1).2.2⟩ :=
  rfl

theorem runMain_some (args : Args) (token : Option String) (svc : Service)
    (res : RunResult) (h : runMain args token svc = some res) :
    res = ⟨(runOrgs svc (get_base_url args.snyk_region) args.verbose args.debug
              (resolveOrgs args svc (get_base_url args.snyk_region)).1).1,
           (resolveOrgs args svc (get_base_url args.snyk_region)).2.1 ++
             (runOrgs svc (get_base_url args.snyk_region) args.verbose args.debug
               (resolveOrgs args svc (get_base_url args.snyk_region)).1).2.1,
           (resolveOrgs args svc (get_base_url args.snyk_region)).2.2 ++
             (runOrgs svc (get_base_url args.snyk_region) args.verbose args.debug
               (resolveOrgs args svc (get_base_url args.snyk_region)).1).2.2⟩ := by
  rw [runMain_eq] at h
  split at h
  · exact absurd h (by simp)
  · split at h
    · exact absurd h (by simp)
    · split at h
      · exact absurd h (by simp)
      · split at h
        · exact absurd h (by simp)
        · exact (Option.some.inj h).symm

theorem runMain_trace_versions (args : Args) (token : Option String)
    (svc : Service) (res : RunResult) (h : runMain args token svc = some res) :
    ∀ req ∈ res.trace,
      (req.kind = ReqKind.detailFetch →
        versionParam req = some "2024-10-14~experimental") ∧
      (req.kind ≠ ReqKind.detailFetch →
        versionParam req = some "2024-10-15" ∨ req.params = none) := by
  have hres := runMain_some args token svc res h
  subst hres
  intro req hreq
  rcases List.mem_append.mp hreq with h1 | h1
  · rcases resolveOrgs_trace args svc _ req h1 with ⟨hk, hp | hp⟩ | ⟨hk, hp⟩
    · exact ⟨fun hd => absurd (hk.symm.trans hd) (by decide),
        fun _ => Or.inl (by simp [versionParam, hp, orgsParams, List.lookup])⟩
    · exact ⟨fun hd => absurd (hk.symm.trans hd) (by decide), fun _ => Or.inr hp⟩
    · exact ⟨fun hd => absurd (hk.symm.trans hd) (by decide),
        fun _ => Or.inl (by simp [versionParam, hp, List.lookup])⟩
  · rcases runOrgs_trace svc _ args.verbose args.debug _ req h1
      with ⟨hk, hp | hp⟩ | ⟨hk, hv⟩
    · exact ⟨fun hd => absurd (hk.symm.trans hd) (by decide),
        fun _ => Or.inl (by simp [versionParam, hp, issuesParams, List.lookup])⟩
    · exact ⟨fun hd => absurd (hk.symm.trans hd) (by decide), fun _ => Or.inr hp⟩
    · exact ⟨fun _ => hv, fun hnd => absurd hk hnd⟩

theorem resolveOrgs_agree (a1 a2 : Args) (svc : Service) (base_url : String)
    (hg : a1.group_id = a2.group_id) (ho : a1.org_id = a2.org_id) :
    (resolveOrgs a1 svc base_url).1 = (resolveOrgs a2 svc base_url).1 ∧
    (resolveOrgs a1 svc base_url).2.1 = (resolveOrgs a2 svc base_url).2.1 := by
  unfold resolveOrgs
  rw [hg, ho]
  constructor <;> split_ifs <;> rfl

theorem runMain_flags (a1 a2 : Args) (token : Option String) (svc : Service)
    (hg : a1.group_id = a2.group_id) (ho : a1.org_id = a2.org_id)
    (hr : a1.snyk_region = a2.snyk_region) :
    (runMain a1 token svc).map RunResult.report =
      (runMain a2 token svc).map RunResult.report ∧
    (runMain a1 token svc).map RunResult.trace =
      (runMain a2 token svc).map RunResult.trace := by
  obtain ⟨hro1, hro2⟩ :=
    resolveOrgs_agree a1 a2 svc (get_base_url a2.snyk_region) hg ho
  obtain ⟨hc1, hc2⟩ :=
    runOrgs_core svc (get_base_url a2.snyk_region) a1.verbose a1.debug
      a2.verbose a2.debug (resolveOrgs a2 svc (get_base_url a2.snyk_region)).1
  rw [runMain_eq, runMain_eq, hg, ho, hr, hro1, hro2]
  constructor <;> split_ifs <;> simp [hc1, hc2]

/-- C4: an issue summary lacking `relationships.scan_item.data.id` or
`attributes.problems[0].id` triggers no detail fetch, adds nothing to any
severity bucket or to `total`, and is counted as skipped. -/
theorem C4_missing_ids_skipped
    (details : String → String → String → Option IssueDetail)
    (base_url org_id : String) (verbose debug : Bool) (st : AggResult)
    (i : Nat) (issue : IssueSummary)
    (h : issue.scan_item_id = none ∨ firstProblemId issue = none) :
    (processIssue details base_url org_id verbose debug st i issue).trace =
      st.trace ∧
    (processIssue details base_url org_id verbose debug st i issue).counts =
      st.counts ∧
    (processIssue details base_url org_id verbose debug st i issue).skipped =
      st.skipped + 1 ∧
    (processIssue details base_url org_id verbose debug st i issue).processed =
      st.processed := by
  have hc := stepCore_noids details base_url org_id st.counts st.processed
    st.skipped st.trace issue h
  refine ⟨?_, ?_, ?_, ?_⟩
  · rw [processIssue_trace, hc]
  · rw [processIssue_counts, hc]
  · rw [processIssue_skipped, hc]
  · rw [processIssue_processed, hc]

/-- Witness for C4 at a concrete issue summary with no identifiers. -/
theorem C4_missing_ids_skipped_witness :
    (issueNoIds.scan_item_id = none ∨ firstProblemId issueNoIds = none) ∧
    ((processIssue detailsW "https://api.snyk.io" "org-123" false false aggInit 1
        issueNoIds).trace = aggInit.trace ∧
     (processIssue detailsW "https://api.snyk.io" "org-123" false false aggInit 1
        issueNoIds).counts = aggInit.counts ∧
     (processIssue detailsW "https://api.snyk.io" "org-123" false false aggInit 1
        issueNoIds).skipped = aggInit.skipped + 1 ∧
     (processIssue detailsW "https://api.snyk.io" "org-123" false false aggInit 1
        issueNoIds).processed = aggInit.processed) :=
  ⟨Or.inl rfl,
   C4_missing_ids_skipped detailsW "https://api.snyk.io" "org-123" false false
     aggInit 1 issueNoIds (Or.inl rfl)⟩

/-- C9: a detail response carrying both line fields with the value zero in
either is skipped exactly like a missing line range (the guard tests Python
truthiness, not field presence), contributing to no bucket and not to total. -/
theorem C9_zero_line_skipped
    (details : String → String → String → Option IssueDetail)
    (base_url org_id : String) (verbose debug : Bool) (st : AggResult)
    (i : Nat) (issue : IssueSummary) (pid iid : String) (d : IssueDetail)
    (s e : Int)
    (hpid : issue.scan_item_id = some pid) (hpne : pid ≠ "")
    (hiid : firstProblemId issue = some iid) (hine : iid ≠ "")
    (hdet : details org_id pid iid = some d)
    (hs : d.startLine = some s) (he : d.endLine = some e)
    (h0 : s = 0 ∨ e = 0) :
    (processIssue details base_url org_id verbose debug st i issue).counts =
      st.counts ∧
    (processIssue details base_url org_id verbose debug st i issue).skipped =
      st.skipped + 1 ∧
    (processIssue details base_url org_id verbose debug st i issue).processed =
      st.processed := by
  have hzero : d.startLine = none ∨ d.endLine = none ∨
      d.startLine = some 0 ∨ d.endLine = some 0 := by
    rcases h0 with rfl | rfl
    · exact Or.inr (Or.inr (Or.inl hs))
    · exact Or.inr (Or.inr (Or.inr he))
  have hc := stepCore_zeroline details base_url org_id st.counts st.processed
    st.skipped st.trace issue pid iid d hpid hpne hiid hine hdet hzero
  refine ⟨?_, ?_, ?_⟩
  · rw [processIssue_counts, hc]
  · rw [processIssue_skipped, hc]
  · rw [processIssue_processed, hc]

/-- Witness for C9 at a concrete detail response with endLine zero. -/
theorem C9_zero_line_skipped_witness :
    (issueW.scan_item_id = some "proj-1") ∧
    (firstProblemId issueW = some "prob-1") ∧
    (detailsZeroEnd "org-123" "proj-1" "prob-1" = some detailZeroEnd) ∧
    (detailZeroEnd.startLine = some 5) ∧ (detailZeroEnd.endLine = some 0) ∧
    ((processIssue detailsZeroEnd "https://api.snyk.io" "org-123" false false
        aggInit 1 issueW).counts = aggInit.counts ∧
     (processIssue detailsZeroEnd "https://api.snyk.io" "org-123" false false
        aggInit 1 issueW).skipped = aggInit.skipped + 1 ∧
     (processIssue detailsZeroEnd "https://api.snyk.io" "org-123" false false
        aggInit 1 issueW).processed = aggInit.processed) :=
  ⟨rfl, rfl, rfl, rfl, rfl,
   C9_zero_line_skipped detailsZeroEnd "https://api.snyk.io" "org-123" false
     false aggInit 1 issueW "proj-1" "prob-1" detailZeroEnd 5 0 rfl
     (by decide) rfl (by decide) rfl rfl rfl (Or.inr rfl)⟩

/-- C5: an issue whose detail response has valid (nonzero) line bounds but
whose severity is not, case-insensitively, `high`, `medium` or `low`
(including any other string, or an absent severity which defaults to
`unknown`) adds nothing to any bucket or to total and is counted as skipped. -/
theorem C5_unknown_severity_skipped
    (details : String → String → String → Option IssueDetail)
    (base_url org_id : String) (verbose debug : Bool) (st : AggResult)
    (i : Nat) (issue : IssueSummary) (pid iid : String) (d : IssueDetail)
    (s e : Int)
    (hpid : issue.scan_item_id = some pid) (hpne : pid ≠ "")
    (hiid : firstProblemId issue = some iid) (hine : iid ≠ "")
    (hdet : details org_id pid iid = some d)
    (hs : d.startLine = some s) (hs0 : s ≠ 0)
    (he : d.endLine = some e) (he0 : e ≠ 0)
    (hsev : (["high", "medium", "low"].contains
      (pyLower (d.severity.getD "unknown"))) = false) :
    (processIssue details base_url org_id verbose debug st i issue).counts =
      st.counts ∧
    (processIssue details base_url org_id verbose debug st i issue).skipped =
      st.skipped + 1 ∧
    (processIssue details base_url org_id verbose debug st i issue).processed =
      st.processed := by
  have hc := stepCore_badsev details base_url org_id st.counts st.processed
    st.skipped st.trace issue pid iid d s e hpid hpne hiid hine hdet hs hs0
    he he0 hsev
  refine ⟨?_, ?_, ?_⟩
  · rw [processIssue_counts, hc]
  · rw [processIssue_skipped, hc]
  · rw [processIssue_processed, hc]

/-- Witness for C5 at a concrete detail response with severity `CRITICAL`. -/
theorem C5_unknown_severity_skipped_witness :
    (detailCrit.startLine = some 2) ∧ (detailCrit.endLine = some 4) ∧
    ((["high", "medium", "low"].contains
      (pyLower (detailCrit.severity.getD "unknown"))) = false) ∧
    ((processIssue detailsCrit "https://api.snyk.io" "org-123" false false
        aggInit 1 issueW).counts = aggInit.counts ∧
     (processIssue detailsCrit "https://api.snyk.io" "org-123" false false
        aggInit 1 issueW).skipped = aggInit.skipped + 1 ∧
     (processIssue detailsCrit "https://api.snyk.io" "org-123" false false
        aggInit 1 issueW).processed = aggInit.processed) :=
  ⟨rfl, rfl, by decide,
   C5_unknown_severity_skipped detailsCrit "https://api.snyk.io" "org-123"
     false false aggInit 1 issueW "proj-1" "prob-1" detailCrit 2 4 rfl
     (by decide) rfl (by decide) rfl rfl (by decide) rfl (by decide)
     (by decide)⟩

/-- Counterexample to C1 as stated: a detail response that contains both
`startLine` and `endLine` (here `0` and `3`) with severity `high`, yet the
aggregator adds nothing to the `high` bucket (the claim would require adding
`endLine - startLine + 1 = 4`); the issue is skipped instead. -/
theorem C1_counterexample :
    detailZero.startLine.isSome = true ∧ detailZero.endLine.isSome = true ∧
    pyLower (detailZero.severity.getD "unknown") = "high" ∧
    (processIssue detailsZero "https://api.snyk.io" "org-123" false false
      aggInit 1 issueW).counts = aggInit.counts ∧
    (processIssue detailsZero "https://api.snyk.io" "org-123" false false
      aggInit 1 issueW).skipped = aggInit.skipped + 1 ∧
    ¬ ((processIssue detailsZero "https://api.snyk.io" "org-123" false false
        aggInit 1 issueW).counts.high =
      aggInit.counts.high +
        (detailZero.endLine.getD 0 - detailZero.startLine.getD 0 + 1)) := by
  decide

/-- C1 (amended): for every issue the aggregator processes whose detail
response contains both `startLine` and `endLine` with nonzero values and
whose severity, lowercased, is `high`, `medium` or `low`, exactly
`endLine - startLine + 1` is added to that severity's bucket and to `total`,
nothing is added to the other two buckets, and the issue counts as processed. -/
theorem C1_bucket_update
    (details : String → String → String → Option IssueDetail)
    (base_url org_id : String) (verbose debug : Bool) (st : AggResult)
    (i : Nat) (issue : IssueSummary) (pid iid : String) (d : IssueDetail)
    (s e : Int)
    (hpid : issue.scan_item_id = some pid) (hpne : pid ≠ "")
    (hiid : firstProblemId issue = some iid) (hine : iid ≠ "")
    (hdet : details org_id pid iid = some d)
    (hs : d.startLine = some s) (hs0 : s ≠ 0)
    (he : d.endLine = some e) (he0 : e ≠ 0)
    (hsev : (["high", "medium", "low"].contains
      (pyLower (d.severity.getD "unknown"))) = true) :
    bucketVal (processIssue details base_url org_id verbose debug st i
        issue).counts (pyLower (d.severity.getD "unknown")) =
      bucketVal st.counts (pyLower (d.severity.getD "unknown")) + (e - s + 1) ∧
    (processIssue details base_url org_id verbose debug st i issue).counts.total =
      st.counts.total + (e - s + 1) ∧
    (∀ other ∈ (["high", "medium", "low"] : List String),
      other ≠ pyLower (d.severity.getD "unknown") →
      bucketVal (processIssue details base_url org_id verbose debug st i
        issue).counts other = bucketVal st.counts other) ∧
    (processIssue details base_url org_id verbose debug st i issue).processed =
      st.processed + 1 ∧
    (processIssue details base_url org_id verbose debug st i issue).skipped =
      st.skipped := by
  have hc := stepCore_counted details base_url org_id st.counts st.processed
    st.skipped st.trace issue pid iid d s e hpid hpne hiid hine hdet hs hs0
    he he0 hsev
  have h4 : pyLower (d.severity.getD "unknown") = "high" ∨
      pyLower (d.severity.getD "unknown") = "medium" ∨
      pyLower (d.severity.getD "unknown") = "low" := by simpa using hsev
  refine ⟨?_, ?_, ?_, ?_, ?_⟩
  · rw [processIssue_counts, hc]
    rcases h4 with h4 | h4 | h4 <;> rw [h4] <;>
      simp [bucketVal, addSeverity, addTotal]
  · rw [processIssue_counts, hc]
    rcases h4 with h4 | h4 | h4 <;> rw [h4] <;> simp [addSeverity, addTotal]
  · intro other ho hne
    rw [processIssue_counts, hc]
    have ho3 : other = "high" ∨ other = "medium" ∨ other = "low" := by
      simpa using ho
    rcases h4 with h4 | h4 | h4 <;> rw [h4] at hne <;>
      rcases ho3 with rfl | rfl | rfl <;>
      simp_all [bucketVal, addSeverity, addTotal]
  · rw [processIssue_processed, hc]
  · rw [processIssue_skipped, hc]

/-- Witness for the amended C1 at a concrete `High` detail with lines 10-12. -/
theorem C1_bucket_update_witness :
    (detailHigh.startLine = some 10) ∧ (detailHigh.endLine = some 12) ∧
    (pyLower (detailHigh.severity.getD "unknown") = "high") ∧
    (bucketVal (processIssue detailsW "https://api.snyk.io" "org-123" false
        false aggInit 1 issueW).counts
        (pyLower (detailHigh.severity.getD "unknown")) =
      bucketVal aggInit.counts (pyLower (detailHigh.severity.getD "unknown")) +
        (12 - 10 + 1) ∧
     (processIssue detailsW "https://api.snyk.io" "org-123" false false aggInit
        1 issueW).counts.total = aggInit.counts.total + (12 - 10 + 1) ∧
     (∀ other ∈ (["high", "medium", "low"] : List String),
       other ≠ pyLower (detailHigh.severity.getD "unknown") →
       bucketVal (processIssue detailsW "https://api.snyk.io" "org-123" false
         false aggInit 1 issueW).counts other = bucketVal aggInit.counts other) ∧
     (processIssue detailsW "https://api.snyk.io" "org-123" false false aggInit
        1 issueW).processed = aggInit.processed + 1 ∧
     (processIssue detailsW "https://api.snyk.io" "org-123" false false aggInit
        1 issueW).skipped = aggInit.skipped) :=
  ⟨rfl, rfl, by decide,
   C1_bucket_update detailsW "https://api.snyk.io" "org-123" false false
     aggInit 1 issueW "proj-1" "prob-1" detailHigh 10 12 rfl (by decide) rfl
     (by decide) rfl rfl (by decide) rfl (by decide) (by decide)⟩

/-- C2: the per-organization counters satisfy `total = high + medium + low`,
starting from all four at zero and after any sequence of issues, and hence
every entry of the persisted report satisfies the same equation. -/
theorem C2_total_is_sum :
    (∀ (svc : Service) (base_url org_id org_slug : String)
       (verbose debug : Bool),
      (process_org_issues svc base_url org_id org_slug verbose
          debug).counts.total =
        (process_org_issues svc base_url org_id org_slug verbose
          debug).counts.high +
        (process_org_issues svc base_url org_id org_slug verbose
          debug).counts.medium +
        (process_org_issues svc base_url org_id org_slug verbose
          debug).counts.low) ∧
    (∀ (args : Args) (token : Option String) (svc : Service) (res : RunResult),
      runMain args token svc = some res →
      ∀ entry ∈ res.report,
        entry.2.total = entry.2.high + entry.2.medium + entry.2.low) := by
  constructor
  · intro svc base_url org_id org_slug verbose debug
    exact process_org_issues_total svc base_url org_id org_slug verbose debug
  · intro args token svc res h entry hent
    have hres := runMain_some args token svc res h
    subst hres
    exact runOrgs_total svc _ args.verbose args.debug _ entry hent

/-- Witness for C2 on a concrete run with one high and one low issue. -/
theorem C2_total_is_sum_witness :
    runMain argsW tokenW svcW = some resW ∧ entryW ∈ resW.report ∧
    entryW.2.total = entryW.2.high + entryW.2.medium + entryW.2.low :=
  ⟨by decide, by decide,
   C2_total_is_sum.2 argsW tokenW svcW resW (by decide) entryW (by decide)⟩

/-- C3: on a response chain whose pages carry truthy next links (present and
non-empty, one of the three documented shapes) up to a last page with no next
link, the pagination loop returns the concatenation of all pages' data arrays
in page order, stops after that first page whose next link is absent (one
request per page consumed), the first request carries the initial query
parameters and every later request carries none, and next references resolve
by the three shapes: absolute URL verbatim, absolute path prefixed with the
base URL, bare fragment prefixed with the base URL and a slash. -/
theorem C3_pagination {α : Type} (kind : ReqKind) (base_url url : String)
    (ps0 : List (String × String)) (pages1 : List (Page α)) (plast : Page α)
    (rest : List (Page α))
    (h1 : ∀ p ∈ pages1, truthyS p.next = true) (h2 : plast.next = none) :
    (paginate kind base_url url (some ps0) (pages1 ++ plast :: rest)).1 =
      (pages1.map Page.data).flatten ++ plast.data ∧
    (paginate kind base_url url (some ps0) (pages1 ++ plast :: rest)).2.length =
      pages1.length + 1 ∧
    ((paginate kind base_url url (some ps0)
        (pages1 ++ plast :: rest)).2).head? = some ⟨kind, url, some ps0⟩ ∧
    (∀ req ∈ ((paginate kind base_url url (some ps0)
        (pages1 ++ plast :: rest)).2).tail, req.params = none) ∧
    (∀ n : String,
      (pyStartswith n "http" = true → resolveNext base_url n = n) ∧
      (pyStartswith n "http" = false → pyStartswith n "/" = true →
        resolveNext base_url n = base_url ++ n) ∧
      (pyStartswith n "http" = false → pyStartswith n "/" = false →
        resolveNext base_url n = base_url ++ "/" ++ n)) := by
  obtain ⟨ha, hb⟩ :=
    paginate_concat kind base_url plast rest h2 pages1 url (some ps0) h1
  refine ⟨ha, hb, ?_,
    paginate_tail_params kind base_url _ url (some ps0), ?_⟩
  · cases pages1 with
    | nil => exact paginate_head kind base_url plast rest url (some ps0)
    | cons p t =>
      exact paginate_head kind base_url p (t ++ plast :: rest) url (some ps0)
  · intro n
    refine ⟨fun hh => ?_, fun hh hsl => ?_, fun hh hsl => ?_⟩
    · unfold resolveNext; simp [hh]
    · unfold resolveNext; simp [hh, hsl]
    · unfold resolveNext
      simp [hh, hsl, pyLstripSlash_of_not_slash n hsl]

/-- Witness for C3 on a four-page chain exercising all three next shapes,
with a fifth page behind the terminating one that is never consumed. -/
theorem C3_pagination_witness :
    (∀ p ∈ [pageA, pageB, pageC], truthyS p.next = true) ∧
    pageD.next = none ∧
    ((paginate ReqKind.listIssues "https://api.snyk.io"
        "https://api.snyk.io/rest/orgs/o1/issues" (some issuesParams)
        ([pageA, pageB, pageC] ++ pageD :: [pageE])).1 =
      ([pageA, pageB, pageC].map Page.data).flatten ++ pageD.data ∧
     (paginate ReqKind.listIssues "https://api.snyk.io"
        "https://api.snyk.io/rest/orgs/o1/issues" (some issuesParams)
        ([pageA, pageB, pageC] ++ pageD :: [pageE])).2.length =
      [pageA, pageB, pageC].length + 1 ∧
     ((paginate ReqKind.listIssues "https://api.snyk.io"
        "https://api.snyk.io/rest/orgs/o1/issues" (some issuesParams)
        ([pageA, pageB, pageC] ++ pageD :: [pageE])).2).head? =
      some ⟨ReqKind.listIssues, "https://api.snyk.io/rest/orgs/o1/issues",
        some issuesParams⟩ ∧
     (∀ req ∈ ((paginate ReqKind.listIssues "https://api.snyk.io"
        "https://api.snyk.io/rest/orgs/o1/issues" (some issuesParams)
        ([pageA, pageB, pageC] ++ pageD :: [pageE])).2).tail,
       req.params = none) ∧
     (∀ n : String,
       (pyStartswith n "http" = true →
         resolveNext "https://api.snyk.io" n = n) ∧
       (pyStartswith n "http" = false → pyStartswith n "/" = true →
         resolveNext "https://api.snyk.io" n = "https://api.snyk.io" ++ n) ∧
       (pyStartswith n "http" = false → pyStartswith n "/" = false →
         resolveNext "https://api.snyk.io" n =
           "https://api.snyk.io" ++ "/" ++ n))) :=
  ⟨by decide, rfl,
   C3_pagination ReqKind.listIssues "https://api.snyk.io"
     "https://api.snyk.io/rest/orgs/o1/issues" issuesParams
     [pageA, pageB, pageC] pageD [pageE] (by decide) rfl⟩

/-- C6: every detail-fetch request issued in any run carries the fixed
version `2024-10-14~experimental`, regardless of the `--api-version` value
(the flag is quantified over and never read by the detail path). -/
theorem C6_detail_version (args : Args) (token : Option String) (svc : Service)
    (res : RunResult) (h : runMain args token svc = some res) :
    ∀ req ∈ res.trace, req.kind = ReqKind.detailFetch →
      versionParam req = some "2024-10-14~experimental" :=
  fun req hreq hk =>
    (runMain_trace_versions args token svc res h req hreq).1 hk

/-- Witness for C6 on the concrete run, at its first detail-fetch request. -/
theorem C6_detail_version_witness :
    runMain argsW tokenW svcW = some resW ∧ reqDetailW ∈ resW.trace ∧
    reqDetailW.kind = ReqKind.detailFetch ∧
    versionParam reqDetailW = some "2024-10-14~experimental" :=
  ⟨by decide, by decide, by decide,
   C6_detail_version argsW tokenW svcW resW (by decide) reqDetailW (by decide)
     (by decide)⟩

/-- C7: for a fixed service, runs differing only in `--verbose` and/or
`--debug` produce the identical report and issue the identical requests;
the flags affect console and debug-file output only. -/
theorem C7_flags_no_effect (args : Args) (token : Option String)
    (svc : Service) (v1 g1 v2 g2 : Bool) :
    (runMain { args with verbose := v1, debug := g1 } token svc).map
        RunResult.report =
      (runMain { args with verbose := v2, debug := g2 } token svc).map
        RunResult.report ∧
    (runMain { args with verbose := v1, debug := g1 } token svc).map
        RunResult.trace =
      (runMain { args with verbose := v2, debug := g2 } token svc).map
        RunResult.trace :=
  runMain_flags { args with verbose := v1, debug := g1 }
    { args with verbose := v2, debug := g2 } token svc rfl rfl rfl

/-- C8: in single-organization mode, a slug lookup that fails with a request
error or returns no slug is non-fatal: the run still succeeds and the report
entry is keyed with the organization id in place of the slug. -/
theorem C8_slug_fallback (args : Args) (token : Option String) (svc : Service)
    (oid : String)
    (hg : args.group_id = none) (ho : args.org_id = some oid)
    (hone : oid ≠ "") (ht : truthyS token = true)
    (hfail : svc.slugResp oid = none ∨ svc.slugResp oid = some none) :
    ∃ res, runMain args token svc = some res ∧
      res.report.map Prod.fst = [oid ++ " (" ++ oid ++ ")"] := by
  have h1 : truthyS args.group_id = false := by rw [hg]; rfl
  have h2 : truthyS args.org_id = true := by rw [ho]; simp [truthyS, hone]
  have hslug : (get_org_slug (get_base_url args.snyk_region) oid
      (svc.slugResp oid)).1 = oid := by
    rcases hfail with hf | hf <;> rw [hf] <;> rfl
  have hresolve : resolveOrgs args svc (get_base_url args.snyk_region) =
      ([(oid, oid)],
       (get_org_slug (get_base_url args.snyk_region) oid
         (svc.slugResp oid)).2,
       ([] : List String)) := by
    unfold resolveOrgs
    rw [h1, ho]
    simp [hslug]
  have hrm : runMain args token svc = some
      ⟨(runOrgs svc (get_base_url args.snyk_region) args.verbose args.debug
          [(oid, oid)]).1,
       (get_org_slug (get_base_url args.snyk_region) oid
          (svc.slugResp oid)).2 ++
         (runOrgs svc (get_base_url args.snyk_region) args.verbose args.debug
           [(oid, oid)]).2.1,
       (runOrgs svc (get_base_url args.snyk_region) args.verbose args.debug
         [(oid, oid)]).2.2⟩ := by
    rw [runMain_eq, hresolve]
    simp [h1, h2, ht]
  exact ⟨_, hrm, by simp [runOrgs]⟩

/-- Witness for C8: the slug lookup fails with a request error, and the
report is keyed `org-123 (org-123)`. -/
theorem C8_slug_fallback_witness :
    argsW.group_id = none ∧ argsW.org_id = some "org-123" ∧
    truthyS tokenW = true ∧ svcFail.slugResp "org-123" = none ∧
    (∃ res, runMain argsW tokenW svcFail = some res ∧
      res.report.map Prod.fst = ["org-123 (org-123)"]) :=
  ⟨rfl, rfl, by decide, rfl,
   C8_slug_fallback argsW tokenW svcFail "org-123" rfl rfl (by decide)
     (by decide) (Or.inl rfl)⟩

/-- C10: the `--api-version` flag has no effect on any request or on the
report (two runs differing only in it are identical), and every listing or
slug-lookup request that carries query parameters carries version
`2024-10-15`. -/
theorem C10_api_version_no_effect (args : Args) (token : Option String)
    (svc : Service) (v1 v2 : String) :
    runMain { args with api_version := v1 } token svc =
      runMain { args with api_version := v2 } token svc ∧
    (∀ res : RunResult, runMain args token svc = some res →
      ∀ req ∈ res.trace,
        (req.kind = ReqKind.listIssues ∨ req.kind = ReqKind.listOrgs ∨
          req.kind = ReqKind.orgLookup) →
        ∀ ps, req.params = some ps →
          ps.lookup "version" = some "2024-10-15") := by
  constructor
  · rfl
  · intro res h req hreq hk ps hps
    have hne : req.kind ≠ ReqKind.detailFetch := by
      rcases hk with hk | hk | hk <;> rw [hk] <;> decide
    rcases (runMain_trace_versions args token svc res h req hreq).2 hne
      with hv | hnone
    · simpa [versionParam, hps] using hv
    · rw [hps] at hnone; simp at hnone

/-- Witness for C10 on the concrete run, at its issues-listing request. -/
theorem C10_api_version_no_effect_witness :
    runMain { argsW with api_version := "2024-01-01" } tokenW svcW =
      runMain { argsW with api_version := "9999-12-31" } tokenW svcW ∧
    runMain argsW tokenW svcW = some resW ∧ reqListW ∈ resW.trace ∧
    reqListW.kind = ReqKind.listIssues ∧
    reqListW.params = some issuesParams ∧
    issuesParams.lookup "version" = some "2024-10-15" :=
  ⟨(C10_api_version_no_effect argsW tokenW svcW "2024-01-01" "9999-12-31").1,
   by decide, by decide, by decide, by decide,
   (C10_api_version_no_effect argsW tokenW svcW "2024-01-01" "9999-12-31").2
     resW (by decide) reqListW (by decide) (Or.inl (by decide)) issuesParams
     (by decide)⟩

end Snyk
